import Mathlib

/-!
Shallow embedding of the emojiforge stdio backend
(`src/emojiforge_backend/main.py`) together with proofs about its
command handlers: settings normalization, the single-item generation
handler, the batch (`generate_all`) orchestrator with progress and
cooperative cancellation, the dispatcher's mutual-exclusion guard for
batch runs, output-path construction and the background-removal
alpha blend.

Modelling conventions:
* Python dicts of JSON scalars are modelled as functions
  `String → Option SVal`; Python floats are modelled as exact
  rationals (all claims proved about them only involve dyadic values
  at which IEEE double arithmetic is exact).
* External collaborators (glyph renderer, diffusion engine,
  background remover, filesystem) are modelled by an outcome oracle:
  `none` means the pipeline for a job succeeded, `some msg` means some
  stage raised an exception with message `msg`.
* The cancellation flag is written concurrently by the dispatcher
  thread; the value the batch worker observes at the boundary check
  before item `g+1` (when `generation_ordinal = g`) is modelled by a
  schedule `cancel : Nat → Bool`.
* `uuid.uuid4()` is modelled by a per-ordinal id supply
  `uuid : Nat → String`.
-/

namespace EmojiForge

/-! ### Python scalar values and builtin conversions -/

/-- A JSON/Python scalar value as it can appear in a settings dict. -/
inductive SVal where
  | i (n : Int)
  | f (q : ℚ)
  | b (x : Bool)
  | s (t : String)
  deriving DecidableEq

/-- Python `int(float)` truncates toward zero. -/
def pyTrunc (q : ℚ) : Int := if 0 ≤ q then ⌊q⌋ else ⌈q⌉

/-- Value of a list of decimal digit characters (most significant first);
`none` if a non-digit occurs.  The empty list has value 0. -/
def digitsVal : List Char → Option Nat
  | [] => some 0
  | c :: rest =>
    if c.isDigit then (digitsVal rest).map fun r => (c.toNat - 48) * 10 ^ rest.length + r
    else none

/-- Nonempty all-digit parse. -/
def parseNat (l : List Char) : Option Nat :=
  if l.isEmpty then none else digitsVal l

/-- Models Python `int(str)` on plain decimal integer literals
(optional sign, digits).  Whitespace, underscores and other bases are
out of scope. -/
def parseInt (str : String) : Option Int :=
  match str.data with
  | '-' :: rest => (parseNat rest).map fun n => -(n : Int)
  | '+' :: rest => (parseNat rest).map fun n => (n : Int)
  | l => (parseNat l).map fun n => (n : Int)

/-- Split a character list at the first `'.'`. -/
def breakDot : List Char → List Char × Option (List Char)
  | [] => ([], none)
  | c :: rest =>
    if c = '.' then ([], some rest)
    else
      let (a, d) := breakDot rest
      (c :: a, d)

/-- Models Python `float(str)` on plain decimal literals
`[sign] digits [ '.' digits ]` (exponents, `inf`, `nan` out of scope);
the result is the exact rational value. -/
def parseFloat (str : String) : Option ℚ :=
  let core : List Char → Option ℚ := fun l =>
    match breakDot l with
    | (ip, none) => (parseNat ip).map fun n => (n : ℚ)
    | (ip, some fp) =>
      if fp.elem '.' then none
      else if ip.isEmpty && fp.isEmpty then none
      else
        match digitsVal ip, digitsVal fp with
        | some n, some m => some ((n : ℚ) + (m : ℚ) / (10 ^ fp.length : ℚ))
        | _, _ => none
  match str.data with
  | '-' :: rest => (core rest).map fun q => -q
  | '+' :: rest => core rest
  | l => core l

/-- Python `int(v)` on a scalar. -/
def pyInt : SVal → Option Int
  | .i n => some n
  | .f q => some (pyTrunc q)
  | .b x => some (if x then 1 else 0)
  | .s t => parseInt t

/-- Python `float(v)` on a scalar. -/
def pyFloat : SVal → Option ℚ
  | .i n => some (n : ℚ)
  | .f q => some q
  | .b x => some (if x then 1 else 0)
  | .s t => parseFloat t

/-- Python `bool(v)` (truthiness) on a scalar; never fails. -/
def pyTruthy : SVal → Bool
  | .i n => n != 0
  | .f q => q != 0
  | .b x => x
  | .s t => t != ""

/-- Python `str(v)` on a scalar; never fails. -/
def pyStr : SVal → String
  | .i n => toString n
  | .f q => toString q
  | .b x => if x then "True" else "False"
  | .s t => t

/-! ### Settings bags and `_normalize_settings` (main.py lines 62-90) -/

/-- A settings dict: a finitely-inhabited map from keys to scalars. -/
def Bag : Type := String → Option SVal

/-- The empty dict `{}`. -/
def emptyBag : Bag := fun _ => none

/-- `bag[k] = v` (or `del bag[k]` for `none`). -/
def setKey (bag : Bag) (k : String) (v : Option SVal) : Bag :=
  fun k2 => if k2 = k then v else bag k2

/-- `bag.pop(k, None)`'s effect on the dict. -/
def popKey (k : String) (bag : Bag) : Bag :=
  match bag k with
  | none => bag
  | some _ => setKey bag k none

/-- `if k in out: out[k] = c(out[k])` — convert the value at `k` when
present; `none` when the conversion raises. -/
def convAt (k : String) (c : SVal → Option SVal) (bag : Bag) : Option Bag :=
  match bag k with
  | none => some bag
  | some v => (c v).map fun w => setKey bag k (some w)

/-- `int(...)` conversion step. -/
def intConv (v : SVal) : Option SVal := (pyInt v).map SVal.i

/-- `float(...)` conversion step. -/
def floatConv (v : SVal) : Option SVal := (pyFloat v).map SVal.f

/-- `bool(...)` conversion step (total). -/
def boolConv (v : SVal) : Option SVal := some (SVal.b (pyTruthy v))

/-- `str(...)` conversion step (total). -/
def strConv (v : SVal) : Option SVal := some (SVal.s (pyStr v))

/-- `if "cfg_scale" in out: out["guidance_scale"] = float(out.pop("cfg_scale"))`
(main.py lines 79-80). -/
def cfgStep (bag : Bag) : Option Bag :=
  match bag "cfg_scale" with
  | none => some bag
  | some v =>
    (floatConv v).map fun w => setKey (setKey bag "guidance_scale" (some w)) "cfg_scale" none

/-- `_normalize_settings(raw)` for a dict argument (main.py lines 62-90):
each recognized key is converted in source order, `cfg_scale` is folded
into `guidance_scale`, and `same_seed` / `max_blend_cap` are popped.
`none` models a conversion raising (the caller does not catch this). -/
def normalizeSettings (raw : Bag) : Option Bag :=
  (convAt "output_size_px" intConv raw).bind fun b1 =>
  (convAt "num_inference_steps" intConv b1).bind fun b2 =>
  (convAt "seed" intConv b2).bind fun b3 =>
  (convAt "batch_size" intConv b3).bind fun b4 =>
  (convAt "strength" floatConv b4).bind fun b5 =>
  (convAt "guidance_scale" floatConv b5).bind fun b6 =>
  (cfgStep b6).bind fun b7 =>
  (convAt "remove_background" boolConv b7).bind fun b8 =>
  (convAt "remove_background_strength" floatConv b8).bind fun b9 =>
  (convAt "rembg_model" strConv b9).map fun b10 =>
  popKey "max_blend_cap" (popKey "same_seed" b10)

/-- `_normalize_settings` including the `raw is None → {}` case. -/
def normalizeSettingsOpt : Option Bag → Option Bag
  | none => some emptyBag
  | some raw => normalizeSettings raw

/-! ### Events, session state -/

/-- Output events emitted over stdout (the `type` discriminator is the
constructor; `ready`/`emoji_list` are not needed by any claim). -/
inductive Event where
  | progress (jobId : String) (current total : Nat) (emoji : String)
  | result (jobId emoji outputPath : String)
  | error (jobId message : String)
  | canceled (current total : Nat) (message : String)
  deriving DecidableEq

/-- Whether an event is a `progress` event. -/
def Event.isProgress : Event → Bool
  | .progress _ _ _ _ => true
  | _ => false

/-- The `current` field of a `progress` event (0 otherwise). -/
def Event.currentOf : Event → Nat
  | .progress _ c _ _ => c
  | _ => 0

/-- `BackendState` (main.py lines 21-49).  `generator` records whether
`state.generator is not None`; `workerAlive` whether a `generate_all`
worker thread is alive; `runLockHeld` whether `_run_lock` is held. -/
structure BackendState where
  generator : Bool
  cancelRequested : Bool
  currentIndex : Nat
  totalItems : Nat
  currentEmoji : String
  runLockHeld : Bool
  workerAlive : Bool
  deriving DecidableEq

/-- Fresh `BackendState()`. -/
def initialState : BackendState :=
  { generator := false, cancelRequested := false, currentIndex := 0, totalItems := 0,
    currentEmoji := "", runLockHeld := false, workerAlive := false }

/-- `is_busy` (main.py lines 40-42). -/
def BackendState.isBusy (st : BackendState) : Bool := st.workerAlive

/-- The spec's progress-state reset condition: `current_index`,
`total_items`, `current_emoji` are zero/empty. -/
def progressReset (st : BackendState) : Prop :=
  st.currentIndex = 0 ∧ st.totalItems = 0 ∧ st.currentEmoji = ""

/-! ### `_safe_output_path` (main.py lines 56-59) -/

/-- Uppercase hexadecimal digit. -/
def hexDigitChar : Nat → Char
  | 0 => '0' | 1 => '1' | 2 => '2' | 3 => '3' | 4 => '4' | 5 => '5' | 6 => '6' | 7 => '7'
  | 8 => '8' | 9 => '9' | 10 => 'A' | 11 => 'B' | 12 => 'C' | 13 => 'D' | 14 => 'E' | _ => 'F'

/-- Fuel-driven uppercase hex digits of `n`, most significant first
(empty for 0). -/
def hexCharsAux : Nat → Nat → List Char
  | 0, _ => []
  | fuel + 1, n => if n = 0 then [] else hexCharsAux fuel (n / 16) ++ [hexDigitChar (n % 16)]

/-- Python `f"{n:04X}"`: uppercase hex, zero-padded on the left to a
minimum width of 4 (code points above `0xFFFF` render with 5 or more
digits). -/
def hex4 (n : Nat) : String :=
  let ds := hexCharsAux (n + 1) n
  String.mk (List.replicate (4 - ds.length) '0' ++ ds)

/-- `sep.join(parts)`. -/
def joinSep (sep : String) : List String → String
  | [] => ""
  | [x] => x
  | x :: rest => x ++ sep ++ joinSep sep rest

/-- `"_".join(f"{ord(c):04X}" for c in emoji_char)` (main.py line 57). -/
def codepointsOf (emojiChar : String) : String :=
  joinSep "_" (emojiChar.data.map fun c => hex4 c.toNat)

/-- `_safe_output_path` (main.py lines 56-59).  `Path(output_dir) / name`
is modelled as POSIX-style separator append. -/
def safeOutputPath (outputDir emojiChar : String) (seed : Int)
    (batchIndex batchSize : Nat) : String :=
  let codepoints := codepointsOf emojiChar
  let suffix := if batchSize > 1 then "_b" ++ toString batchIndex else ""
  outputDir ++ "/" ++ ("emoji_" ++ codepoints ++ "_s" ++ toString seed ++ suffix ++ ".png")

/-! ### Background-removal strength blend (main.py lines 108, 146-151) -/

/-- `max(0.0, min(1.0, remove_bg_strength))` (main.py line 108). -/
def clampStrength (s : ℚ) : ℚ := max 0 (min 1 s)

/-- One entry of the alpha lookup table:
`int((255 * keep) + (p * remove_bg_strength))` with `keep = 1.0 - s`
(main.py lines 149-150).  Python `int()` truncates. -/
def blendAlpha (s : ℚ) (p : Nat) : Int := pyTrunc (255 * (1 - s) + (p : ℚ) * s)

/-- Output alpha for one matte pixel `a` at (already clamped) strength
`s`: the blend is applied only when `remove_bg_strength < 1.0`
(main.py line 146), otherwise the matte alpha is kept unchanged. -/
def matteOutAlpha (s : ℚ) (a : Nat) : Int :=
  if s < 1 then blendAlpha s a else (a : Int)

/-! ### `_handle_generate` (main.py lines 93-201) -/

/-- A parsed `generate` command dict.  `none` models a missing key. -/
structure GenCmd where
  jobId : Option String
  emoji : Option String
  prompt : Option String
  outputPath : Option String
  settings : Option Bag
  preserve : Bool

/-- Result of `_handle_generate`: events emitted, state on return,
`raised` models an exception escaping the handler (only settings
normalization, main.py line 104, can do so), `ranPipeline` whether the
`try` block (rendering/diffusion/matting/save) was entered. -/
structure GenOut where
  events : List Event
  final : BackendState
  raised : Option String
  ranPipeline : Bool
  deriving DecidableEq

/-- Outcome of the `try` block of `_handle_generate` (main.py lines
112-200): missing required keys raise `KeyError` inside the block;
every collaborator/IO failure is abstracted by the `pipe` oracle. -/
def tryOutcome (cmd : GenCmd) (pipe : Option String) : Option String :=
  match cmd.emoji with
  | none => some "KeyError: emoji"
  | some _ =>
    match pipe with
    | some m => some m
    | none =>
      match cmd.prompt with
      | none => some "KeyError: prompt"
      | some _ =>
        match cmd.outputPath with
        | none => some "KeyError: output_path"
        | some _ => none

/-- `_handle_generate(state, cmd)` (main.py lines 93-201).  `freshId`
models `str(uuid.uuid4())`; `pipe` is the collaborator outcome oracle.
Note the progress counters are set (lines 100-103) and settings are
normalized (line 104) before the `try` block, so a normalization
failure escapes the handler with the counters already mutated. -/
def handleGenerate (st : BackendState) (cmd : GenCmd) (freshId : String)
    (pipe : Option String) : GenOut :=
  if st.generator = false then
    { events := [.error (cmd.jobId.getD "") "Generator not initialized."],
      final := st, raised := none, ranPipeline := false }
  else
    let jobId := cmd.jobId.getD freshId
    let st1 :=
      if cmd.preserve then st
      else { st with currentIndex := 1, totalItems := 1, currentEmoji := cmd.emoji.getD "" }
    match normalizeSettingsOpt cmd.settings with
    | none => { events := [], final := st1, raised := some "invalid settings value",
                ranPipeline := false }
    | some _settings =>
      match tryOutcome cmd pipe with
      | some msg =>
        { events := [.error jobId msg], final := st1, raised := none, ranPipeline := true }
      | none =>
        { events := [.result jobId (cmd.emoji.getD "") (cmd.outputPath.getD "")],
          final := st1, raised := none, ranPipeline := true }

/-! ### `_handle_generate_all` (main.py lines 203-282) -/

/-- One invocation of the Generation Orchestrator (`_handle_generate`)
made by the batch loop: the per-item job id, emoji, derived seed,
output path and multiplier index it was handed. -/
structure GenCall where
  jobId : String
  emoji : String
  seed : Int
  outputPath : String
  batchIndex : Nat
  deriving DecidableEq

/-- Result of `_handle_generate_all`. -/
structure BatchOut where
  events : List Event
  calls : List GenCall
  final : BackendState
  raised : Option String
  deriving DecidableEq

/-- `int(bag.get(k, dflt))`. -/
def pyGetInt (bag : Bag) (k : String) (dflt : Int) : Option Int :=
  match bag k with
  | none => some dflt
  | some v => pyInt v

/-- `int(base_settings.get("batch_size", 1))` (main.py line 211,
before the `max(1, ·)`). -/
def batchSizeOf (bag : Bag) : Option Int := pyGetInt bag "batch_size" 1

/-- `int(base_settings.get("seed", 42))` (main.py line 214). -/
def baseSeedOf (bag : Bag) : Option Int := pyGetInt bag "seed" 42

/-- `bool(base_settings.get("same_seed", False))` (main.py line 215). -/
def sameSeedOf (bag : Bag) : Bool := pyTruthy ((bag "same_seed").getD (SVal.b false))

/-- The iteration space of the two nested loops (main.py lines
220-221): multiplier indices `1..batch_size`, each over the catalog in
order, paired as `(batch_index, emoji_char)`. -/
def pairsOf (catalog : List String) (batchSize : Nat) : List (Nat × String) :=
  (List.range' 1 batchSize).flatMap fun bi => catalog.map fun e => (bi, e)

/-- The nested loops of `_handle_generate_all` (main.py lines 220-282)
over the remaining `(batch_index, emoji)` pairs, with `g` the number of
ordinals already completed.  `cancel g` is the value of
`state.cancel_requested` observed at the boundary check before item
`g+1`; a raised exception from the per-item `_handle_generate` call
aborts the loop (caught only by the worker wrapper). -/
def batchLoop (st : BackendState) (pairs : List (Nat × String)) (g total : Nat)
    (baseSeed : Int) (sameSeed : Bool) (outDir : String) (batchSize : Nat)
    (settings : Bag) (prompt : Option String)
    (uuid : Nat → String) (pipe : Nat → Option String) (cancel : Nat → Bool) : BatchOut :=
  match pairs with
  | [] =>
    { events := [], calls := [],
      final := { st with currentIndex := 0, totalItems := 0, currentEmoji := "" },
      raised := none }
  | (bi, e) :: rest =>
    if cancel g then
      { events := [.canceled g total "Generation canceled by user."], calls := [],
        final := { st with currentIndex := 0, totalItems := 0, currentEmoji := "" },
        raised := none }
    else
      let g1 := g + 1
      let st1 := { st with currentIndex := g1, currentEmoji := e }
      let perSeed := if sameSeed then baseSeed else baseSeed + ((g1 - 1 : Nat) : Int)
      let outPath := safeOutputPath outDir e perSeed bi batchSize
      let jobId := uuid g1
      let ev := Event.progress jobId g1 total e
      match prompt with
      | none => { events := [ev], calls := [], final := st1, raised := some "KeyError: prompt" }
      | some p =>
        let perSettings := setKey settings "seed" (some (SVal.i perSeed))
        let item := handleGenerate st1
          { jobId := some jobId, emoji := some e, prompt := some p,
            outputPath := some outPath, settings := some perSettings, preserve := true }
          jobId (pipe g1)
        match item.raised with
        | some m =>
          { events := ev :: item.events, calls := [⟨jobId, e, perSeed, outPath, bi⟩],
            final := item.final, raised := some m }
        | none =>
          let restOut := batchLoop item.final rest g1 total baseSeed sameSeed outDir batchSize
            settings prompt uuid pipe cancel
          { events := ev :: (item.events ++ restOut.events),
            calls := ⟨jobId, e, perSeed, outPath, bi⟩ :: restOut.calls,
            final := restOut.final, raised := restOut.raised }

/-- `_handle_generate_all(state, cmd)` (main.py lines 203-282).
`catalog` is the `char` column of `get_all_emojis()`; `settingsBag` is
`cmd.get("settings", {})` (`none` for absent); `outputDir` / `prompt`
model `cmd["output_dir"]` / `cmd["prompt"]`. -/
def handleGenerateAll (st : BackendState) (catalog : List String) (settingsBag : Option Bag)
    (outputDir : Option String) (prompt : Option String)
    (uuid : Nat → String) (pipe : Nat → Option String) (cancel : Nat → Bool) : BatchOut :=
  if st.generator = false then
    { events := [.error "" "Generator not initialized."], calls := [], final := st,
      raised := none }
  else
    let st0 := { st with cancelRequested := false }
    let baseSettings := settingsBag.getD emptyBag
    match batchSizeOf baseSettings with
    | none => { events := [], calls := [], final := st0, raised := some "invalid batch_size" }
    | some bRaw =>
      let batchSize := (max 1 bRaw).toNat
      let total := catalog.length * batchSize
      let st2 := { st0 with totalItems := total }
      match baseSeedOf baseSettings with
      | none => { events := [], calls := [], final := st2, raised := some "invalid seed" }
      | some baseSeed =>
        let sameSeed := sameSeedOf baseSettings
        match normalizeSettings baseSettings with
        | none =>
          { events := [], calls := [], final := st2, raised := some "invalid settings value" }
        | some settings =>
          match outputDir with
          | none =>
            { events := [], calls := [], final := st2, raised := some "KeyError: output_dir" }
          | some outDir =>
            batchLoop st2 (pairsOf catalog batchSize) 0 total baseSeed sameSeed outDir
              batchSize settings prompt uuid pipe cancel

/-! ### Dispatcher guard for `generate_all` (main.py lines 371-385) -/

/-- Result of dispatching one `generate_all` command line. -/
structure DispatchOut where
  events : List Event
  final : BackendState
  spawned : Bool
  deriving DecidableEq

/-- The `generate_all` branch of the dispatcher loop (main.py lines
371-385): reject while the worker is alive, reject when the run lock
cannot be acquired, otherwise acquire it and start the worker thread
(the worker's own events are emitted asynchronously, not here). -/
def dispatchGenerateAll (st : BackendState) : DispatchOut :=
  if st.isBusy then
    { events := [.error "" "Generation already in progress."], final := st, spawned := false }
  else if st.runLockHeld then
    { events := [.error "" "Generation already in progress."], final := st, spawned := false }
  else
    { events := [], final := { st with runLockHeld := true, workerAlive := true },
      spawned := true }

/-! ### Canonical batch traces (the spec's description of the batch) -/

/-- The spec's per-ordinal seed: `base_seed + (n-1)` for 1-based
ordinal `n` unless `same_seed`. -/
def seedFor (baseSeed : Int) (sameSeed : Bool) (n : Nat) : Int :=
  if sameSeed then baseSeed else baseSeed + ((n - 1 : Nat) : Int)

/-- The terminal (`result` or `error`) event of batch ordinal `n`. -/
def itemTerminal (uuid : Nat → String) (pipe : Nat → Option String) (outDir : String)
    (baseSeed : Int) (sameSeed : Bool) (batchSize : Nat)
    (n bi : Nat) (e : String) : Event :=
  match pipe n with
  | none => .result (uuid n) e (safeOutputPath outDir e (seedFor baseSeed sameSeed n) bi batchSize)
  | some m => .error (uuid n) m

/-- The event trace the spec prescribes for the items of `pairs` when
`g` ordinals are already done: for each item, a `progress` event
immediately followed by that item's terminal event. -/
def expectedEvents (uuid : Nat → String) (pipe : Nat → Option String) (outDir : String)
    (baseSeed : Int) (sameSeed : Bool) (batchSize total : Nat)
    (g : Nat) (pairs : List (Nat × String)) : List Event :=
  (List.enumFrom (g + 1) pairs).flatMap fun (n, bi, e) =>
    [.progress (uuid n) n total e,
     itemTerminal uuid pipe outDir baseSeed sameSeed batchSize n bi e]

/-- The orchestrator invocations the spec prescribes for the items of
`pairs` when `g` ordinals are already done. -/
def expectedCalls (uuid : Nat → String) (outDir : String)
    (baseSeed : Int) (sameSeed : Bool) (batchSize : Nat)
    (g : Nat) (pairs : List (Nat × String)) : List GenCall :=
  (List.enumFrom (g + 1) pairs).map fun (n, bi, e) =>
    ⟨uuid n, e, seedFor baseSeed sameSeed n,
     safeOutputPath outDir e (seedFor baseSeed sameSeed n) bi batchSize, bi⟩

/-! ### Normalization invariants -/

/-- The value at `k` (when present) is a fixpoint of the conversion `c`. -/
def NormAt (c : SVal → Option SVal) (k : String) (bag : Bag) : Prop :=
  ∀ v, bag k = some v → c v = some v

/-- Shape of a bag produced by `_normalize_settings`: every recognized
key holds an already-converted value and the popped keys are absent. -/
def IsNormalized (bag : Bag) : Prop :=
  NormAt intConv "output_size_px" bag ∧
  NormAt intConv "num_inference_steps" bag ∧
  NormAt intConv "seed" bag ∧
  NormAt intConv "batch_size" bag ∧
  NormAt floatConv "strength" bag ∧
  NormAt floatConv "guidance_scale" bag ∧
  bag "cfg_scale" = none ∧
  NormAt boolConv "remove_background" bag ∧
  NormAt floatConv "remove_background_strength" bag ∧
  NormAt strConv "rembg_model" bag ∧
  bag "same_seed" = none ∧
  bag "max_blend_cap" = none

theorem intConv_fix {v w : SVal} (h : intConv v = some w) : intConv w = some w := by
  obtain ⟨n, _, rfl⟩ := Option.map_eq_some'.mp h
  rfl

theorem floatConv_fix {v w : SVal} (h : floatConv v = some w) : floatConv w = some w := by
  obtain ⟨q, _, rfl⟩ := Option.map_eq_some'.mp h
  rfl

theorem boolConv_fix {v w : SVal} (h : boolConv v = some w) : boolConv w = some w := by
  cases h
  rfl

theorem strConv_fix {v w : SVal} (h : strConv v = some w) : strConv w = some w := by
  cases h
  rfl

theorem setKey_same (bag : Bag) (k : String) (v : Option SVal) : setKey bag k v k = v := by
  simp [setKey]

theorem setKey_other (bag : Bag) (k : String) (v : Option SVal) (k2 : String) (h : k2 ≠ k) :
    setKey bag k v k2 = bag k2 := by
  simp [setKey, h]

theorem setKey_eq_self {bag : Bag} {k : String} {v : Option SVal} (h : bag k = v) :
    setKey bag k v = bag := by
  funext k2
  by_cases hk : k2 = k
  · subst hk; simp [setKey, h]
  · simp [setKey, hk]

theorem convAt_ne {k : String} {c : SVal → Option SVal} {bag bag2 : Bag}
    (h : convAt k c bag = some bag2) (k2 : String) (hne : k2 ≠ k) : bag2 k2 = bag k2 := by
  unfold convAt at h
  cases hb : bag k with
  | none => rw [hb] at h; cases h; rfl
  | some v =>
    rw [hb] at h
    obtain ⟨w, _, rfl⟩ := Option.map_eq_some'.mp h
    exact setKey_other bag k (some w) k2 hne

theorem convAt_normAt {k : String} {c : SVal → Option SVal} {bag bag2 : Bag}
    (hfix : ∀ v w, c v = some w → c w = some w)
    (h : convAt k c bag = some bag2) : NormAt c k bag2 := by
  unfold convAt at h
  cases hb : bag k with
  | none =>
    rw [hb] at h; cases h
    intro v hv
    rw [hb] at hv; cases hv
  | some v =>
    rw [hb] at h
    obtain ⟨w, hw, rfl⟩ := Option.map_eq_some'.mp h
    intro v2 hv2
    rw [setKey_same] at hv2
    cases hv2
    exact hfix v _ hw

theorem normAt_of_eq {c : SVal → Option SVal} {k : String} {bag bag2 : Bag}
    (he : bag2 k = bag k) (h : NormAt c k bag) : NormAt c k bag2 := by
  intro v hv
  exact h v (he ▸ hv)

theorem cfgStep_ne {bag bag2 : Bag} (h : cfgStep bag = some bag2) (k2 : String)
    (h1 : k2 ≠ "cfg_scale") (h2 : k2 ≠ "guidance_scale") : bag2 k2 = bag k2 := by
  unfold cfgStep at h
  cases hb : bag "cfg_scale" with
  | none => rw [hb] at h; cases h; rfl
  | some v =>
    rw [hb] at h
    obtain ⟨w, _, rfl⟩ := Option.map_eq_some'.mp h
    rw [setKey_other _ _ _ _ h1, setKey_other _ _ _ _ h2]

theorem cfgStep_cfg {bag bag2 : Bag} (h : cfgStep bag = some bag2) : bag2 "cfg_scale" = none := by
  unfold cfgStep at h
  cases hb : bag "cfg_scale" with
  | none => rw [hb] at h; cases h; exact hb
  | some v =>
    rw [hb] at h
    obtain ⟨w, _, rfl⟩ := Option.map_eq_some'.mp h
    exact setKey_same _ _ _

theorem cfgStep_guidance {bag bag2 : Bag} (h : cfgStep bag = some bag2)
    (hg : NormAt floatConv "guidance_scale" bag) :
    NormAt floatConv "guidance_scale" bag2 := by
  unfold cfgStep at h
  cases hb : bag "cfg_scale" with
  | none => rw [hb] at h; cases h; exact hg
  | some v =>
    rw [hb] at h
    obtain ⟨w, hw, rfl⟩ := Option.map_eq_some'.mp h
    intro v2 hv2
    rw [setKey_other _ _ _ _ (by decide), setKey_same] at hv2
    cases hv2
    exact floatConv_fix hw

theorem popKey_self (k : String) (bag : Bag) : popKey k bag k = none := by
  unfold popKey
  cases hb : bag k with
  | none => exact hb
  | some v => exact setKey_same _ _ _

theorem popKey_other (k : String) (bag : Bag) (k2 : String) (h : k2 ≠ k) :
    popKey k bag k2 = bag k2 := by
  unfold popKey
  cases hb : bag k with
  | none => rfl
  | some v => exact setKey_other _ _ _ _ h

theorem convAt_of_normAt {k : String} {c : SVal → Option SVal} {bag : Bag}
    (h : NormAt c k bag) : convAt k c bag = some bag := by
  cases hb : bag k with
  | none => simp [convAt, hb]
  | some v => simp [convAt, hb, h v hb, setKey_eq_self hb]

theorem cfgStep_of_none {bag : Bag} (h : bag "cfg_scale" = none) : cfgStep bag = some bag := by
  unfold cfgStep
  rw [h]

theorem popKey_of_none {k : String} {bag : Bag} (h : bag k = none) : popKey k bag = bag := by
  unfold popKey
  rw [h]

/-- A bag in normalized shape passes `_normalize_settings` unchanged. -/
theorem normalize_of_isNormalized {bag : Bag} (h : IsNormalized bag) :
    normalizeSettings bag = some bag := by
  obtain ⟨h1, h2, h3, h4, h5, h6, h7, h8, h9, h10, h11, h12⟩ := h
  unfold normalizeSettings
  rw [convAt_of_normAt h1, Option.some_bind, convAt_of_normAt h2, Option.some_bind,
    convAt_of_normAt h3, Option.some_bind, convAt_of_normAt h4, Option.some_bind,
    convAt_of_normAt h5, Option.some_bind, convAt_of_normAt h6, Option.some_bind,
    cfgStep_of_none h7, Option.some_bind, convAt_of_normAt h8, Option.some_bind,
    convAt_of_normAt h9, Option.some_bind, convAt_of_normAt h10, Option.map_some',
    popKey_of_none h11, popKey_of_none h12]

/-- The output of `_normalize_settings` is in normalized shape. -/
theorem isNormalized_of_normalize {raw y : Bag} (h : normalizeSettings raw = some y) :
    IsNormalized y := by
  unfold normalizeSettings at h
  simp only [Option.bind_eq_some, Option.map_eq_some'] at h
  obtain ⟨b1, h1, b2, h2, b3, h3, b4, h4, b5, h5, b6, h6, b7, h7, b8, h8, b9, h9, b10, h10, hy⟩ := h
  subst hy
  have n1 : NormAt intConv "output_size_px" b1 := convAt_normAt (fun _ _ => intConv_fix) h1
  have n1b : NormAt intConv "output_size_px" b2 :=
    normAt_of_eq (convAt_ne h2 _ (by decide)) n1
  have n2 : NormAt intConv "num_inference_steps" b2 := convAt_normAt (fun _ _ => intConv_fix) h2
  have n1c : NormAt intConv "output_size_px" b3 :=
    normAt_of_eq (convAt_ne h3 _ (by decide)) n1b
  have n2c : NormAt intConv "num_inference_steps" b3 :=
    normAt_of_eq (convAt_ne h3 _ (by decide)) n2
  have n3 : NormAt intConv "seed" b3 := convAt_normAt (fun _ _ => intConv_fix) h3
  have n1d : NormAt intConv "output_size_px" b4 :=
    normAt_of_eq (convAt_ne h4 _ (by decide)) n1c
  have n2d : NormAt intConv "num_inference_steps" b4 :=
    normAt_of_eq (convAt_ne h4 _ (by decide)) n2c
  have n3d : NormAt intConv "seed" b4 :=
    normAt_of_eq (convAt_ne h4 _ (by decide)) n3
  have n4 : NormAt intConv "batch_size" b4 := convAt_normAt (fun _ _ => intConv_fix) h4
  have n1e : NormAt intConv "output_size_px" b5 :=
    normAt_of_eq (convAt_ne h5 _ (by decide)) n1d
  have n2e : NormAt intConv "num_inference_steps" b5 :=
    normAt_of_eq (convAt_ne h5 _ (by decide)) n2d
  have n3e : NormAt intConv "seed" b5 :=
    normAt_of_eq (convAt_ne h5 _ (by decide)) n3d
  have n4e : NormAt intConv "batch_size" b5 :=
    normAt_of_eq (convAt_ne h5 _ (by decide)) n4
  have n5 : NormAt floatConv "strength" b5 := convAt_normAt (fun _ _ => floatConv_fix) h5
  have n1f : NormAt intConv "output_size_px" b6 :=
    normAt_of_eq (convAt_ne h6 _ (by decide)) n1e
  have n2f : NormAt intConv "num_inference_steps" b6 :=
    normAt_of_eq (convAt_ne h6 _ (by decide)) n2e
  have n3f : NormAt intConv "seed" b6 :=
    normAt_of_eq (convAt_ne h6 _ (by decide)) n3e
  have n4f : NormAt intConv "batch_size" b6 :=
    normAt_of_eq (convAt_ne h6 _ (by decide)) n4e
  have n5f : NormAt floatConv "strength" b6 :=
    normAt_of_eq (convAt_ne h6 _ (by decide)) n5
  have n6 : NormAt floatConv "guidance_scale" b6 := convAt_normAt (fun _ _ => floatConv_fix) h6
  have n1g : NormAt intConv "output_size_px" b7 :=
    normAt_of_eq (cfgStep_ne h7 _ (by decide) (by decide)) n1f
  have n2g : NormAt intConv "num_inference_steps" b7 :=
    normAt_of_eq (cfgStep_ne h7 _ (by decide) (by decide)) n2f
  have n3g : NormAt intConv "seed" b7 :=
    normAt_of_eq (cfgStep_ne h7 _ (by decide) (by decide)) n3f
  have n4g : NormAt intConv "batch_size" b7 :=
    normAt_of_eq (cfgStep_ne h7 _ (by decide) (by decide)) n4f
  have n5g : NormAt floatConv "strength" b7 :=
    normAt_of_eq (cfgStep_ne h7 _ (by decide) (by decide)) n5f
  have n6g : NormAt floatConv "guidance_scale" b7 := cfgStep_guidance h7 n6
  have n7g : b7 "cfg_scale" = none := cfgStep_cfg h7
  have n1h : NormAt intConv "output_size_px" b8 :=
    normAt_of_eq (convAt_ne h8 _ (by decide)) n1g
  have n2h : NormAt intConv "num_inference_steps" b8 :=
    normAt_of_eq (convAt_ne h8 _ (by decide)) n2g
  have n3h : NormAt intConv "seed" b8 :=
    normAt_of_eq (convAt_ne h8 _ (by decide)) n3g
  have n4h : NormAt intConv "batch_size" b8 :=
    normAt_of_eq (convAt_ne h8 _ (by decide)) n4g
  have n5h : NormAt floatConv "strength" b8 :=
    normAt_of_eq (convAt_ne h8 _ (by decide)) n5g
  have n6h : NormAt floatConv "guidance_scale" b8 :=
    normAt_of_eq (convAt_ne h8 _ (by decide)) n6g
  have n7h : b8 "cfg_scale" = none := (convAt_ne h8 _ (by decide)).trans n7g
  have n8 : NormAt boolConv "remove_background" b8 := convAt_normAt (fun _ _ => boolConv_fix) h8
  have n1i : NormAt intConv "output_size_px" b9 :=
    normAt_of_eq (convAt_ne h9 _ (by decide)) n1h
  have n2i : NormAt intConv "num_inference_steps" b9 :=
    normAt_of_eq (convAt_ne h9 _ (by decide)) n2h
  have n3i : NormAt intConv "seed" b9 :=
    normAt_of_eq (convAt_ne h9 _ (by decide)) n3h
  have n4i : NormAt intConv "batch_size" b9 :=
    normAt_of_eq (convAt_ne h9 _ (by decide)) n4h
  have n5i : NormAt floatConv "strength" b9 :=
    normAt_of_eq (convAt_ne h9 _ (by decide)) n5h
  have n6i : NormAt floatConv "guidance_scale" b9 :=
    normAt_of_eq (convAt_ne h9 _ (by decide)) n6h
  have n7i : b9 "cfg_scale" = none := (convAt_ne h9 _ (by decide)).trans n7h
  have n8i : NormAt boolConv "remove_background" b9 :=
    normAt_of_eq (convAt_ne h9 _ (by decide)) n8
  have n9 : NormAt floatConv "remove_background_strength" b9 :=
    convAt_normAt (fun _ _ => floatConv_fix) h9
  have n1j : NormAt intConv "output_size_px" b10 :=
    normAt_of_eq (convAt_ne h10 _ (by decide)) n1i
  have n2j : NormAt intConv "num_inference_steps" b10 :=
    normAt_of_eq (convAt_ne h10 _ (by decide)) n2i
  have n3j : NormAt intConv "seed" b10 :=
    normAt_of_eq (convAt_ne h10 _ (by decide)) n3i
  have n4j : NormAt intConv "batch_size" b10 :=
    normAt_of_eq (convAt_ne h10 _ (by decide)) n4i
  have n5j : NormAt floatConv "strength" b10 :=
    normAt_of_eq (convAt_ne h10 _ (by decide)) n5i
  have n6j : NormAt floatConv "guidance_scale" b10 :=
    normAt_of_eq (convAt_ne h10 _ (by decide)) n6i
  have n7j : b10 "cfg_scale" = none := (convAt_ne h10 _ (by decide)).trans n7i
  have n8j : NormAt boolConv "remove_background" b10 :=
    normAt_of_eq (convAt_ne h10 _ (by decide)) n8i
  have n9j : NormAt floatConv "remove_background_strength" b10 :=
    normAt_of_eq (convAt_ne h10 _ (by decide)) n9
  have n10 : NormAt strConv "rembg_model" b10 := convAt_normAt (fun _ _ => strConv_fix) h10
  have popEq : ∀ k2 : String, k2 ≠ "same_seed" → k2 ≠ "max_blend_cap" →
      popKey "max_blend_cap" (popKey "same_seed" b10) k2 = b10 k2 := by
    intro k2 hss hmb
    rw [popKey_other _ _ _ hmb, popKey_other _ _ _ hss]
  refine ⟨?_, ?_, ?_, ?_, ?_, ?_, ?_, ?_, ?_, ?_, ?_, ?_⟩
  · exact normAt_of_eq (popEq _ (by decide) (by decide)) n1j
  · exact normAt_of_eq (popEq _ (by decide) (by decide)) n2j
  · exact normAt_of_eq (popEq _ (by decide) (by decide)) n3j
  · exact normAt_of_eq (popEq _ (by decide) (by decide)) n4j
  · exact normAt_of_eq (popEq _ (by decide) (by decide)) n5j
  · exact normAt_of_eq (popEq _ (by decide) (by decide)) n6j
  · exact (popEq _ (by decide) (by decide)).trans n7j
  · exact normAt_of_eq (popEq _ (by decide) (by decide)) n8j
  · exact normAt_of_eq (popEq _ (by decide) (by decide)) n9j
  · exact normAt_of_eq (popEq _ (by decide) (by decide)) n10
  · rw [popKey_other _ _ _ (by decide)]
    exact popKey_self _ _
  · exact popKey_self _ _

/-- Overwriting the `seed` key with an `int` keeps a bag normalized. -/
theorem isNormalized_setKey_seed {bag : Bag} (h : IsNormalized bag) (n : Int) :
    IsNormalized (setKey bag "seed" (some (SVal.i n))) := by
  obtain ⟨h1, h2, h3, h4, h5, h6, h7, h8, h9, h10, h11, h12⟩ := h
  refine ⟨normAt_of_eq (setKey_other _ _ _ _ (by decide)) h1,
    normAt_of_eq (setKey_other _ _ _ _ (by decide)) h2, ?_,
    normAt_of_eq (setKey_other _ _ _ _ (by decide)) h4,
    normAt_of_eq (setKey_other _ _ _ _ (by decide)) h5,
    normAt_of_eq (setKey_other _ _ _ _ (by decide)) h6,
    (setKey_other _ _ _ _ (by decide)).trans h7,
    normAt_of_eq (setKey_other _ _ _ _ (by decide)) h8,
    normAt_of_eq (setKey_other _ _ _ _ (by decide)) h9,
    normAt_of_eq (setKey_other _ _ _ _ (by decide)) h10,
    (setKey_other _ _ _ _ (by decide)).trans h11,
    (setKey_other _ _ _ _ (by decide)).trans h12⟩
  intro v hv
  rw [setKey_same] at hv
  cases hv
  rfl

/-! ### Batch-loop lemmas -/

theorem toNat_max_one {B : Nat} (hB : 1 ≤ B) : (max 1 (B : Int)).toNat = B := by
  omega

theorem length_flatMap_const {α β : Type} (l : List α) (fn : α → List β) (k : Nat)
    (h : ∀ a ∈ l, (fn a).length = k) : (l.flatMap fn).length = l.length * k := by
  induction l with
  | nil => simp
  | cons a t ih =>
    simp only [List.flatMap_cons, List.length_append, List.length_cons,
      h a (List.mem_cons_self a t), ih fun x hx => h x (List.mem_cons_of_mem a hx)]
    ring

theorem length_pairsOf (catalog : List String) (B : Nat) :
    (pairsOf catalog B).length = B * catalog.length := by
  unfold pairsOf
  rw [length_flatMap_const _ _ catalog.length fun a _ => by simp, List.length_range']

theorem enumFrom_getElem {α : Type} (start : Nat) (l : List α) (i : Nat) :
    (List.enumFrom start l)[i]? = l[i]?.map fun a => (start + i, a) := by
  induction l generalizing start i with
  | nil => simp
  | cons a t ih =>
    cases i with
    | zero => simp [List.enumFrom]
    | succ j => simp [List.enumFrom, ih, Nat.add_assoc, Nat.add_comm 1 j]

theorem isProgress_itemTerminal (uuid : Nat → String) (pipe : Nat → Option String)
    (outDir : String) (baseSeed : Int) (sameSeed : Bool) (batchSize n bi : Nat) (e : String) :
    (itemTerminal uuid pipe outDir baseSeed sameSeed batchSize n bi e).isProgress = false := by
  unfold itemTerminal
  cases pipe n <;> rfl

theorem isProgress_progress (j : String) (c t : Nat) (e : String) :
    (Event.progress j c t e).isProgress = true := rfl

theorem expectedEvents_cons (uuid : Nat → String) (pipe : Nat → Option String)
    (outDir : String) (baseSeed : Int) (sameSeed : Bool) (batchSize total g bi : Nat)
    (e : String) (rest : List (Nat × String)) :
    expectedEvents uuid pipe outDir baseSeed sameSeed batchSize total g ((bi, e) :: rest)
    = Event.progress (uuid (g + 1)) (g + 1) total e
      :: itemTerminal uuid pipe outDir baseSeed sameSeed batchSize (g + 1) bi e
      :: expectedEvents uuid pipe outDir baseSeed sameSeed batchSize total (g + 1) rest := by
  simp [expectedEvents, List.enumFrom]

theorem expectedCalls_cons (uuid : Nat → String) (outDir : String) (baseSeed : Int)
    (sameSeed : Bool) (batchSize g bi : Nat) (e : String) (rest : List (Nat × String)) :
    expectedCalls uuid outDir baseSeed sameSeed batchSize g ((bi, e) :: rest)
    = ⟨uuid (g + 1), e, seedFor baseSeed sameSeed (g + 1),
        safeOutputPath outDir e (seedFor baseSeed sameSeed (g + 1)) bi batchSize, bi⟩
      :: expectedCalls uuid outDir baseSeed sameSeed batchSize (g + 1) rest := by
  simp [expectedCalls, List.enumFrom]

/-- The `progress` currents of the prescribed trace are consecutive. -/
theorem expectedEvents_currents (uuid : Nat → String) (pipe : Nat → Option String)
    (outDir : String) (baseSeed : Int) (sameSeed : Bool) (batchSize total : Nat)
    (g : Nat) (pairs : List (Nat × String)) :
    ((expectedEvents uuid pipe outDir baseSeed sameSeed batchSize total g pairs).filter
        Event.isProgress).map Event.currentOf = List.range' (g + 1) pairs.length := by
  induction pairs generalizing g with
  | nil => simp [expectedEvents, List.enumFrom]
  | cons pr rest ih =>
    obtain ⟨bi, e⟩ := pr
    rw [expectedEvents_cons]
    simp [List.filter_cons, isProgress_progress, isProgress_itemTerminal, Event.currentOf,
      ih (g + 1), List.range']

/-- One batch item: the per-item `_handle_generate` call with
progress preservation and a normalized settings bag emits exactly the
item's terminal event and leaves the state unchanged. -/
theorem handleGenerate_batch_item (st : BackendState) (j e p o : String) (sd : Int)
    (nset : Bag) (pipe : Option String)
    (hgen : st.generator = true) (hn : IsNormalized nset) :
    handleGenerate st
      { jobId := some j, emoji := some e, prompt := some p, outputPath := some o,
        settings := some (setKey nset "seed" (some (SVal.i sd))), preserve := true }
      j pipe
    = { events := [match pipe with
          | none => Event.result j e o
          | some m => Event.error j m],
        final := st, raised := none, ranPipeline := true } := by
  have hns : normalizeSettings (setKey nset "seed" (some (SVal.i sd)))
      = some (setKey nset "seed" (some (SVal.i sd))) :=
    normalize_of_isNormalized (isNormalized_setKey_seed hn sd)
  cases pipe with
  | none => simp [handleGenerate, hgen, normalizeSettingsOpt, hns, tryOutcome]
  | some m => simp [handleGenerate, hgen, normalizeSettingsOpt, hns, tryOutcome]

/-- Unfolding of the batch loop when cancellation is never observed
from `g` on: the emitted trace and call list are exactly the
prescribed ones and the progress state is reset at the end. -/
theorem batchLoop_no_cancel (pairs : List (Nat × String)) (g : Nat) (st : BackendState)
    (total : Nat) (baseSeed : Int) (sameSeed : Bool) (outDir : String) (batchSize : Nat)
    (nset : Bag) (p : String) (uuid : Nat → String) (pipe : Nat → Option String)
    (cancel : Nat → Bool)
    (hgen : st.generator = true) (hn : IsNormalized nset)
    (hc : ∀ j, g ≤ j → cancel j = false) :
    batchLoop st pairs g total baseSeed sameSeed outDir batchSize nset (some p) uuid pipe cancel
    = { events := expectedEvents uuid pipe outDir baseSeed sameSeed batchSize total g pairs,
        calls := expectedCalls uuid outDir baseSeed sameSeed batchSize g pairs,
        final := { st with currentIndex := 0, totalItems := 0, currentEmoji := "" },
        raised := none } := by
  induction pairs generalizing g st with
  | nil => simp [batchLoop, expectedEvents, expectedCalls, List.enumFrom]
  | cons pr rest ih =>
    obtain ⟨bi, e⟩ := pr
    have hitem := handleGenerate_batch_item
      { st with currentIndex := g + 1, currentEmoji := e }
      (uuid (g + 1)) e p
      (safeOutputPath outDir e
        (if sameSeed then baseSeed else baseSeed + ((g + 1 - 1 : Nat) : Int)) bi batchSize)
      (if sameSeed then baseSeed else baseSeed + ((g + 1 - 1 : Nat) : Int))
      nset (pipe (g + 1)) hgen hn
    rw [batchLoop, if_neg (by simp [hc g le_rfl])]
    simp only [hitem]
    rw [ih (g + 1) { st with currentIndex := g + 1, currentEmoji := e } hgen
      fun j hj => hc j (by omega)]
    simp only [expectedEvents, expectedCalls, List.enumFrom, List.flatMap_cons, List.map_cons,
      itemTerminal, seedFor]
    rfl

/-- Unfolding of the batch loop when cancellation is first observed at
the boundary check after `k` ordinals (with `g ≤ k` done so far and
item `k+1` still remaining): the first `k - g` remaining items run,
then a `canceled` event is emitted and the progress state is reset. -/
theorem batchLoop_cancel_at (pairs : List (Nat × String)) (g k : Nat) (st : BackendState)
    (total : Nat) (baseSeed : Int) (sameSeed : Bool) (outDir : String) (batchSize : Nat)
    (nset : Bag) (p : String) (uuid : Nat → String) (pipe : Nat → Option String)
    (cancel : Nat → Bool)
    (hgen : st.generator = true) (hn : IsNormalized nset)
    (hgk : g ≤ k) (hklt : k - g < pairs.length)
    (hc1 : ∀ j, g ≤ j → j < k → cancel j = false) (hc2 : cancel k = true) :
    batchLoop st pairs g total baseSeed sameSeed outDir batchSize nset (some p) uuid pipe cancel
    = { events := expectedEvents uuid pipe outDir baseSeed sameSeed batchSize total g
          (pairs.take (k - g))
          ++ [Event.canceled k total "Generation canceled by user."],
        calls := expectedCalls uuid outDir baseSeed sameSeed batchSize g (pairs.take (k - g)),
        final := { st with currentIndex := 0, totalItems := 0, currentEmoji := "" },
        raised := none } := by
  induction pairs generalizing g st with
  | nil => simp at hklt
  | cons pr rest ih =>
    obtain ⟨bi, e⟩ := pr
    by_cases hgk2 : g = k
    · subst hgk2
      rw [batchLoop, if_pos hc2]
      simp [expectedEvents, expectedCalls, List.enumFrom]
    · have hglt : g < k := lt_of_le_of_ne hgk hgk2
      have hitem := handleGenerate_batch_item
        { st with currentIndex := g + 1, currentEmoji := e }
        (uuid (g + 1)) e p
        (safeOutputPath outDir e
          (if sameSeed then baseSeed else baseSeed + ((g + 1 - 1 : Nat) : Int)) bi batchSize)
        (if sameSeed then baseSeed else baseSeed + ((g + 1 - 1 : Nat) : Int))
        nset (pipe (g + 1)) hgen hn
      rw [batchLoop, if_neg (by simp [hc1 g le_rfl hglt])]
      simp only [hitem]
      have hklt2 : k - (g + 1) < rest.length := by
        simp only [List.length_cons] at hklt
        omega
      rw [ih (g + 1) { st with currentIndex := g + 1, currentEmoji := e } hgen
        (by omega) hklt2 (fun j hj hk2 => hc1 j (by omega) hk2)]
      have htake : k - g = (k - (g + 1)) + 1 := by omega
      rw [htake, List.take_succ_cons]
      simp only [expectedEvents, expectedCalls, List.enumFrom, List.flatMap_cons,
        List.map_cons, itemTerminal, seedFor]
      rfl

/-- Whenever the batch loop completes without a raised exception, it
has reset the progress counters. -/
theorem batchLoop_reset_of_not_raised (pairs : List (Nat × String)) (g : Nat)
    (st : BackendState) (total : Nat) (baseSeed : Int) (sameSeed : Bool) (outDir : String)
    (batchSize : Nat) (settings : Bag) (prompt : Option String) (uuid : Nat → String)
    (pipe : Nat → Option String) (cancel : Nat → Bool)
    (h : (batchLoop st pairs g total baseSeed sameSeed outDir batchSize settings prompt
        uuid pipe cancel).raised = none) :
    progressReset (batchLoop st pairs g total baseSeed sameSeed outDir batchSize settings
      prompt uuid pipe cancel).final := by
  induction pairs generalizing g st with
  | nil => exact ⟨rfl, rfl, rfl⟩
  | cons pr rest ih =>
    obtain ⟨bi, e⟩ := pr
    cases prompt with
    | none =>
      rw [batchLoop] at h
      by_cases hcg : cancel g
      · rw [batchLoop, if_pos hcg]
        exact ⟨rfl, rfl, rfl⟩
      · rw [if_neg hcg] at h
        simp at h
    | some p =>
      rw [batchLoop] at h ⊢
      by_cases hcg : cancel g
      · rw [if_pos hcg] at h ⊢
        exact ⟨rfl, rfl, rfl⟩
      · rw [if_neg hcg] at h ⊢
        dsimp only at h ⊢
        split at h
        · simp at h
        · rename_i heq
          simp only [heq] at h ⊢
          exact ih _ _ h

/-- Reduction of `_handle_generate_all` to the batch loop when the
settings extractions succeed. -/
theorem handleGenerateAll_eq_loop (st : BackendState) (catalog : List String) (bag : Bag)
    (outDir p : String) (uuid : Nat → String) (pipe : Nat → Option String)
    (cancel : Nat → Bool) (bRaw s0 : Int) (B : Nat) (nset : Bag)
    (hgen : st.generator = true)
    (hB : batchSizeOf bag = some bRaw) (hmax : (max 1 bRaw).toNat = B)
    (hs : baseSeedOf bag = some s0)
    (hnorm : normalizeSettings bag = some nset) :
    handleGenerateAll st catalog (some bag) (some outDir) (some p) uuid pipe cancel
    = batchLoop
        { st with cancelRequested := false, totalItems := catalog.length * B }
        (pairsOf catalog B) 0 (catalog.length * B) s0 (sameSeedOf bag) outDir B nset
        (some p) uuid pipe cancel := by
  subst hmax
  simp [handleGenerateAll, hgen, hB, hs, hnorm]

theorem expectedCalls_getElem (uuid : Nat → String) (outDir : String) (baseSeed : Int)
    (sameSeed : Bool) (batchSize g : Nat) (pairs : List (Nat × String)) (i : Nat) :
    (expectedCalls uuid outDir baseSeed sameSeed batchSize g pairs)[i]?
    = pairs[i]?.map fun pr =>
        ⟨uuid (g + 1 + i), pr.2, seedFor baseSeed sameSeed (g + 1 + i),
         safeOutputPath outDir pr.2 (seedFor baseSeed sameSeed (g + 1 + i)) pr.1 batchSize,
         pr.1⟩ := by
  unfold expectedCalls
  rw [List.getElem?_map, enumFrom_getElem]
  cases pairs[i]? with
  | none => rfl
  | some pr => rfl

/-- `_handle_generate` on a fresh (non-batch) job sets the progress
state to `1 / 1 / emoji` and leaves it there on every exit path. -/
theorem handleGenerate_sets_one_one (st : BackendState) (cmd : GenCmd) (freshId : String)
    (pipe : Option String) (hgen : st.generator = true) (hpres : cmd.preserve = false) :
    (handleGenerate st cmd freshId pipe).final.currentIndex = 1 ∧
    (handleGenerate st cmd freshId pipe).final.totalItems = 1 ∧
    (handleGenerate st cmd freshId pipe).final.currentEmoji = cmd.emoji.getD "" := by
  cases hn : normalizeSettingsOpt cmd.settings with
  | none => simp [handleGenerate, hgen, hpres, hn]
  | some s2 =>
    cases ht : tryOutcome cmd pipe <;> simp [handleGenerate, hgen, hpres, hn, ht]

/-- `_handle_generate_all` resets the progress counters whenever it
returns without a raised exception (natural completion or
cancellation). -/
theorem handleGenerateAll_reset_of_not_raised (st : BackendState) (catalog : List String)
    (bag : Option Bag) (outDir p : Option String) (uuid : Nat → String)
    (pipe : Nat → Option String) (cancel : Nat → Bool)
    (hgen : st.generator = true)
    (hr : (handleGenerateAll st catalog bag outDir p uuid pipe cancel).raised = none) :
    progressReset (handleGenerateAll st catalog bag outDir p uuid pipe cancel).final := by
  unfold handleGenerateAll at hr ⊢
  rw [hgen] at hr ⊢
  simp only [Bool.true_eq_false, if_false] at hr ⊢
  cases hB : batchSizeOf (bag.getD emptyBag) with
  | none => simp only [hB] at hr; simp at hr
  | some bRaw =>
    simp only [hB] at hr ⊢
    cases hS : baseSeedOf (bag.getD emptyBag) with
    | none => simp only [hS] at hr; simp at hr
    | some s0 =>
      simp only [hS] at hr ⊢
      cases hN : normalizeSettings (bag.getD emptyBag) with
      | none => simp only [hN] at hr; simp at hr
      | some nset =>
        simp only [hN] at hr ⊢
        cases outDir with
        | none => simp at hr
        | some od => exact batchLoop_reset_of_not_raised _ _ _ _ _ _ _ _ _ _ _ _ _ hr

/-! ### Claim theorems -/

/-- Claim C1: for a catalog of `N` entries and `batch_size = B`, an
uncancelled `generate_all` run raises no exception and its event trace
is exactly, for each 1-based ordinal `n ≤ N*B` in increasing order, a
`progress` event immediately followed by the `result`/`error` event of
that same item; in particular the `current` fields of the `progress`
events are exactly `1, …, N*B`. -/
theorem c1_progress_trace (st : BackendState) (catalog : List String) (bag : Bag)
    (outDir p : String) (uuid : Nat → String) (pipe : Nat → Option String)
    (cancel : Nat → Bool) (B : Nat) (s0 : Int) (nset : Bag)
    (hgen : st.generator = true) (hB1 : 1 ≤ B)
    (hB : batchSizeOf bag = some (B : Int))
    (hs : baseSeedOf bag = some s0)
    (hnorm : normalizeSettings bag = some nset)
    (hcancel : ∀ j, cancel j = false) :
    (handleGenerateAll st catalog (some bag) (some outDir) (some p) uuid pipe cancel).raised
      = none ∧
    (handleGenerateAll st catalog (some bag) (some outDir) (some p) uuid pipe cancel).events
      = expectedEvents uuid pipe outDir s0 (sameSeedOf bag) B (catalog.length * B) 0
          (pairsOf catalog B) ∧
    (((handleGenerateAll st catalog (some bag) (some outDir) (some p) uuid pipe
        cancel).events.filter Event.isProgress).map Event.currentOf)
      = List.range' 1 (catalog.length * B) := by
  rw [handleGenerateAll_eq_loop st catalog bag outDir p uuid pipe cancel (B : Int) s0 B nset
    hgen hB (toNat_max_one hB1) hs hnorm]
  rw [batchLoop_no_cancel (pairsOf catalog B) 0
    { st with cancelRequested := false, totalItems := catalog.length * B }
    (catalog.length * B) s0 (sameSeedOf bag) outDir B nset p uuid pipe cancel
    hgen (isNormalized_of_normalize hnorm) fun j _ => hcancel j]
  refine ⟨rfl, rfl, ?_⟩
  rw [expectedEvents_currents, length_pairsOf, Nat.mul_comm B catalog.length]

/-- Claim C1 witness: a concrete uncancelled run over a two-entry
catalog with default settings. -/
theorem c1_progress_trace_witness :
    ((handleGenerateAll { initialState with generator := true } ["a", "b"] (some emptyBag)
        (some "out") (some "pr") (fun n => toString n) (fun _ => none)
        (fun _ => false)).raised = none ∧
    (handleGenerateAll { initialState with generator := true } ["a", "b"] (some emptyBag)
        (some "out") (some "pr") (fun n => toString n) (fun _ => none)
        (fun _ => false)).events
      = expectedEvents (fun n => toString n) (fun _ => none) "out" 42 (sameSeedOf emptyBag) 1
          (["a", "b"].length * 1) 0 (pairsOf ["a", "b"] 1) ∧
    (((handleGenerateAll { initialState with generator := true } ["a", "b"] (some emptyBag)
        (some "out") (some "pr") (fun n => toString n) (fun _ => none)
        (fun _ => false)).events.filter Event.isProgress).map Event.currentOf)
      = List.range' 1 (["a", "b"].length * 1)) :=
  c1_progress_trace { initialState with generator := true } ["a", "b"] emptyBag "out" "pr"
    (fun n => toString n) (fun _ => none) (fun _ => false) 1 42 emptyBag rfl (by decide)
    rfl rfl rfl fun _ => rfl

/-- Claim C2: in an uncancelled `generate_all` run, the orchestrator
invocation for the 1-based ordinal `n` carries seed
`base_seed + (n-1)` when `same_seed` is false and `base_seed` for every
item when it is true, and an absent `seed` key defaults the base seed
to 42. -/
theorem c2_seed_formula (st : BackendState) (catalog : List String) (bag : Bag)
    (outDir p : String) (uuid : Nat → String) (pipe : Nat → Option String)
    (cancel : Nat → Bool) (B : Nat) (s0 : Int) (nset : Bag)
    (hgen : st.generator = true) (hB1 : 1 ≤ B)
    (hB : batchSizeOf bag = some (B : Int))
    (hs : baseSeedOf bag = some s0)
    (hnorm : normalizeSettings bag = some nset)
    (hcancel : ∀ j, cancel j = false) :
    (handleGenerateAll st catalog (some bag) (some outDir) (some p) uuid pipe cancel).calls
      = expectedCalls uuid outDir s0 (sameSeedOf bag) B 0 (pairsOf catalog B) ∧
    (∀ n : Nat, 1 ≤ n → n ≤ catalog.length * B →
      ((handleGenerateAll st catalog (some bag) (some outDir) (some p) uuid pipe
          cancel).calls[n - 1]?).map GenCall.seed
        = some (if sameSeedOf bag then s0 else s0 + ((n : Int) - 1))) ∧
    (∀ bag2 : Bag, bag2 "seed" = none → baseSeedOf bag2 = some 42) := by
  rw [handleGenerateAll_eq_loop st catalog bag outDir p uuid pipe cancel (B : Int) s0 B nset
    hgen hB (toNat_max_one hB1) hs hnorm]
  rw [batchLoop_no_cancel (pairsOf catalog B) 0
    { st with cancelRequested := false, totalItems := catalog.length * B }
    (catalog.length * B) s0 (sameSeedOf bag) outDir B nset p uuid pipe cancel
    hgen (isNormalized_of_normalize hnorm) fun j _ => hcancel j]
  refine ⟨rfl, ?_, ?_⟩
  · intro n h1 h2
    show (expectedCalls uuid outDir s0 (sameSeedOf bag) B 0 (pairsOf catalog B))[n - 1]?.map
      GenCall.seed = _
    rw [expectedCalls_getElem]
    have hlen : n - 1 < (pairsOf catalog B).length := by
      rw [length_pairsOf, Nat.mul_comm B catalog.length]
      omega
    have hidx : ∃ pr, (pairsOf catalog B)[n - 1]? = some pr := by
      rw [List.getElem?_eq_getElem hlen]
      exact ⟨_, rfl⟩
    obtain ⟨pr, hpr⟩ := hidx
    rw [hpr]
    have hord : 0 + 1 + (n - 1) = n := by omega
    rw [hord]
    cases hss : sameSeedOf bag with
    | true => simp [seedFor]
    | false =>
      simp only [Option.map_some', seedFor, if_false, Option.some.injEq]
      have : ((n - 1 : Nat) : Int) = (n : Int) - 1 := by omega
      rw [this]
  · intro bag2 hb
    simp [baseSeedOf, pyGetInt, hb]

/-- Claim C2 witness: concrete run over a two-entry catalog, default
seed 42, `same_seed` absent. -/
theorem c2_seed_formula_witness :
    ((handleGenerateAll { initialState with generator := true } ["a", "b"] (some emptyBag)
        (some "out") (some "pr") (fun n => toString n) (fun _ => none)
        (fun _ => false)).calls
      = expectedCalls (fun n => toString n) "out" 42 (sameSeedOf emptyBag) 1 0
          (pairsOf ["a", "b"] 1) ∧
    (∀ n : Nat, 1 ≤ n → n ≤ ["a", "b"].length * 1 →
      ((handleGenerateAll { initialState with generator := true } ["a", "b"] (some emptyBag)
          (some "out") (some "pr") (fun n => toString n) (fun _ => none)
          (fun _ => false)).calls[n - 1]?).map GenCall.seed
        = some (if sameSeedOf emptyBag then 42 else 42 + ((n : Int) - 1))) ∧
    (∀ bag2 : Bag, bag2 "seed" = none → baseSeedOf bag2 = some 42)) :=
  c2_seed_formula { initialState with generator := true } ["a", "b"] emptyBag "out" "pr"
    (fun n => toString n) (fun _ => none) (fun _ => false) 1 42 emptyBag rfl (by decide)
    rfl rfl rfl fun _ => rfl

/-- Claim C3: if cancellation is first observed at the boundary after
`k` completed ordinals (and before item `k+1` of a strictly larger
batch starts), the batch emits exactly the events of the first `k`
items followed by one `canceled` event with `current = k`, makes
exactly `k` orchestrator invocations (none for item `k+1` or later),
resets the progress state and raises nothing. -/
theorem c3_cancel_boundary (st : BackendState) (catalog : List String) (bag : Bag)
    (outDir p : String) (uuid : Nat → String) (pipe : Nat → Option String)
    (cancel : Nat → Bool) (B : Nat) (s0 : Int) (nset : Bag) (k : Nat)
    (hgen : st.generator = true) (hB1 : 1 ≤ B)
    (hB : batchSizeOf bag = some (B : Int))
    (hs : baseSeedOf bag = some s0)
    (hnorm : normalizeSettings bag = some nset)
    (hk : k < catalog.length * B)
    (hc1 : ∀ j, j < k → cancel j = false) (hc2 : cancel k = true) :
    (handleGenerateAll st catalog (some bag) (some outDir) (some p) uuid pipe cancel).events
      = expectedEvents uuid pipe outDir s0 (sameSeedOf bag) B (catalog.length * B) 0
          ((pairsOf catalog B).take k)
        ++ [Event.canceled k (catalog.length * B) "Generation canceled by user."] ∧
    (handleGenerateAll st catalog (some bag) (some outDir) (some p) uuid pipe cancel).calls
      = expectedCalls uuid outDir s0 (sameSeedOf bag) B 0 ((pairsOf catalog B).take k) ∧
    (handleGenerateAll st catalog (some bag) (some outDir) (some p) uuid pipe
        cancel).calls.length = k ∧
    progressReset (handleGenerateAll st catalog (some bag) (some outDir) (some p) uuid pipe
        cancel).final ∧
    (handleGenerateAll st catalog (some bag) (some outDir) (some p) uuid pipe cancel).raised
      = none := by
  rw [handleGenerateAll_eq_loop st catalog bag outDir p uuid pipe cancel (B : Int) s0 B nset
    hgen hB (toNat_max_one hB1) hs hnorm]
  have hklt : k - 0 < (pairsOf catalog B).length := by
    rw [length_pairsOf, Nat.mul_comm B catalog.length]
    omega
  rw [batchLoop_cancel_at (pairsOf catalog B) 0 k
    { st with cancelRequested := false, totalItems := catalog.length * B }
    (catalog.length * B) s0 (sameSeedOf bag) outDir B nset p uuid pipe cancel
    hgen (isNormalized_of_normalize hnorm)
    (Nat.zero_le k) hklt (fun j _ hj => hc1 j hj) hc2]
  refine ⟨rfl, rfl, ?_, ⟨rfl, rfl, rfl⟩, rfl⟩
  show (expectedCalls uuid outDir s0 (sameSeedOf bag) B 0
    ((pairsOf catalog B).take (k - 0))).length = k
  unfold expectedCalls
  rw [List.length_map, List.enumFrom_length, List.length_take, length_pairsOf,
    Nat.mul_comm B catalog.length]
  omega

/-- Claim C3 witness: cancellation observed after 1 of 2 ordinals in a
concrete run. -/
theorem c3_cancel_boundary_witness :
    ((handleGenerateAll { initialState with generator := true } ["a", "b"] (some emptyBag)
        (some "out") (some "pr") (fun n => toString n) (fun _ => none)
        (fun j => decide (1 ≤ j))).events
      = expectedEvents (fun n => toString n) (fun _ => none) "out" 42 (sameSeedOf emptyBag) 1
          (["a", "b"].length * 1) 0 ((pairsOf ["a", "b"] 1).take 1)
        ++ [Event.canceled 1 (["a", "b"].length * 1) "Generation canceled by user."] ∧
    (handleGenerateAll { initialState with generator := true } ["a", "b"] (some emptyBag)
        (some "out") (some "pr") (fun n => toString n) (fun _ => none)
        (fun j => decide (1 ≤ j))).calls
      = expectedCalls (fun n => toString n) "out" 42 (sameSeedOf emptyBag) 1 0
          ((pairsOf ["a", "b"] 1).take 1) ∧
    (handleGenerateAll { initialState with generator := true } ["a", "b"] (some emptyBag)
        (some "out") (some "pr") (fun n => toString n) (fun _ => none)
        (fun j => decide (1 ≤ j))).calls.length = 1 ∧
    progressReset (handleGenerateAll { initialState with generator := true } ["a", "b"]
        (some emptyBag) (some "out") (some "pr") (fun n => toString n) (fun _ => none)
        (fun j => decide (1 ≤ j))).final ∧
    (handleGenerateAll { initialState with generator := true } ["a", "b"] (some emptyBag)
        (some "out") (some "pr") (fun n => toString n) (fun _ => none)
        (fun j => decide (1 ≤ j))).raised = none) :=
  c3_cancel_boundary { initialState with generator := true } ["a", "b"] emptyBag "out" "pr"
    (fun n => toString n) (fun _ => none) (fun j => decide (1 ≤ j)) 1 42 emptyBag 1 rfl
    (by decide) rfl rfl rfl (by decide) (by decide) rfl

/-- Claim C7: every orchestrator invocation of an uncancelled
`generate_all` run writes to
`<output_dir>/emoji_<CODEPOINTS>_s<seed><suffix>.png`, where
CODEPOINTS underscore-joins the uppercase, 4-digit-zero-padded hex
code points of the emoji's characters and `<suffix>` is
`_b<batchIndex>` exactly when `batch_size > 1` and empty otherwise. -/
theorem c7_output_path_format (st : BackendState) (catalog : List String) (bag : Bag)
    (outDir p : String) (uuid : Nat → String) (pipe : Nat → Option String)
    (cancel : Nat → Bool) (B : Nat) (s0 : Int) (nset : Bag)
    (hgen : st.generator = true) (hB1 : 1 ≤ B)
    (hB : batchSizeOf bag = some (B : Int))
    (hs : baseSeedOf bag = some s0)
    (hnorm : normalizeSettings bag = some nset)
    (hcancel : ∀ j, cancel j = false) :
    ∀ c ∈ (handleGenerateAll st catalog (some bag) (some outDir) (some p) uuid pipe
        cancel).calls,
      c.outputPath
        = outDir ++ "/" ++ ("emoji_" ++ joinSep "_" (c.emoji.data.map fun ch => hex4 ch.toNat)
            ++ "_s" ++ toString c.seed
            ++ (if 1 < B then "_b" ++ toString c.batchIndex else "") ++ ".png") := by
  rw [handleGenerateAll_eq_loop st catalog bag outDir p uuid pipe cancel (B : Int) s0 B nset
    hgen hB (toNat_max_one hB1) hs hnorm]
  rw [batchLoop_no_cancel (pairsOf catalog B) 0
    { st with cancelRequested := false, totalItems := catalog.length * B }
    (catalog.length * B) s0 (sameSeedOf bag) outDir B nset p uuid pipe cancel
    hgen (isNormalized_of_normalize hnorm) fun j _ => hcancel j]
  intro c hc
  unfold expectedCalls at hc
  obtain ⟨⟨n, bi, e⟩, hmem, rfl⟩ := List.mem_map.mp hc
  rfl

/-- Claim C7 witness: the single invocation of a concrete run over a
catalog containing a supplementary-plane emoji, with `batch_size = 1`. -/
theorem c7_output_path_format_witness :
    (⟨"1", "😀", 42, "out/emoji_1F600_s42.png", 1⟩ : GenCall).outputPath
      = "out" ++ "/" ++ ("emoji_"
          ++ joinSep "_" ((⟨"1", "😀", 42, "out/emoji_1F600_s42.png", 1⟩ :
              GenCall).emoji.data.map fun ch => hex4 ch.toNat)
          ++ "_s" ++ toString (⟨"1", "😀", 42, "out/emoji_1F600_s42.png", 1⟩ : GenCall).seed
          ++ (if 1 < 1 then
                "_b" ++ toString (⟨"1", "😀", 42, "out/emoji_1F600_s42.png", 1⟩ :
                  GenCall).batchIndex
              else "") ++ ".png") :=
  c7_output_path_format { initialState with generator := true } ["😀"] emptyBag "out" "pr"
    (fun n => toString n) (fun _ => none) (fun _ => false) 1 42 emptyBag rfl (by decide)
    rfl rfl rfl (fun _ => rfl)
    ⟨"1", "😀", 42, "out/emoji_1F600_s42.png", 1⟩ (by decide)

/-- Claim C4: while a batch worker is alive, a `generate_all` command
is rejected with an "already in progress" `error` event, the session
state is returned unchanged (progress counters, cancellation flag and
run lock untouched) and no second worker is spawned. -/
theorem c4_mutual_exclusion (st : BackendState) (h : st.workerAlive = true) :
    dispatchGenerateAll st
      = { events := [Event.error "" "Generation already in progress."],
          final := st, spawned := false } := by
  simp [dispatchGenerateAll, BackendState.isBusy, h]

/-- Claim C4 witness: a concrete mid-batch state. -/
theorem c4_mutual_exclusion_witness :
    ({ generator := true, cancelRequested := false, currentIndex := 2, totalItems := 6,
       currentEmoji := "a", runLockHeld := true, workerAlive := true } :
       BackendState).workerAlive = true ∧
    dispatchGenerateAll
      { generator := true, cancelRequested := false, currentIndex := 2, totalItems := 6,
        currentEmoji := "a", runLockHeld := true, workerAlive := true }
      = { events := [Event.error "" "Generation already in progress."],
          final := { generator := true, cancelRequested := false, currentIndex := 2,
                     totalItems := 6, currentEmoji := "a", runLockHeld := true,
                     workerAlive := true },
          spawned := false } :=
  ⟨rfl, c4_mutual_exclusion
    { generator := true, cancelRequested := false, currentIndex := 2, totalItems := 6,
      currentEmoji := "a", runLockHeld := true, workerAlive := true } rfl⟩

/-- Claim C5 is refuted by the code: `_handle_generate` normalizes the
settings (main.py line 104) before entering its `try` block, so a
settings value that fails numeric conversion (here `seed = "abc"`)
raises out of the handler into the dispatcher loop — no terminal
`error` event is emitted for the job.  This theorem evaluates the
handler at that failing input: the emitted event list is empty and the
exception escapes. -/
theorem c5_settings_exception_escapes :
    (handleGenerate { initialState with generator := true }
        { jobId := some "job-1", emoji := some "X", prompt := some "p",
          outputPath := some "out.png",
          settings := some fun k => if k = "seed" then some (SVal.s "abc") else none,
          preserve := false } "fresh" none).events = [] ∧
    (handleGenerate { initialState with generator := true }
        { jobId := some "job-1", emoji := some "X", prompt := some "p",
          outputPath := some "out.png",
          settings := some fun k => if k = "seed" then some (SVal.s "abc") else none,
          preserve := false } "fresh" none).raised = some "invalid settings value" :=
  ⟨rfl, rfl⟩

/-- Claim C6 is refuted at `strength = 0.5`, matte alpha `0`: the code
computes `int(255*0.5 + 0*0.5) = 127` (truncation), while the claimed
`round(...)` is `128`.  All values involved are exactly representable
dyadic rationals, so the exact-rational model agrees with the IEEE
float computation here. -/
theorem c6_blend_round_counterexample :
    clampStrength (1 / 2) = 1 / 2 ∧
    matteOutAlpha (clampStrength (1 / 2)) 0 = 127 ∧
    round ((255 : ℚ) * (1 - clampStrength (1 / 2)) + (0 : ℚ) * clampStrength (1 / 2)) = 128 ∧
    matteOutAlpha (clampStrength (1 / 2)) 0
      ≠ round ((255 : ℚ) * (1 - clampStrength (1 / 2)) + (0 : ℚ) * clampStrength (1 / 2)) := by
  have hc : clampStrength (1 / 2 : ℚ) = 1 / 2 := by
    unfold clampStrength
    rw [min_eq_right (by norm_num), max_eq_right (by norm_num)]
  refine ⟨hc, ?_, ?_, ?_⟩ <;> rw [hc]
  · unfold matteOutAlpha blendAlpha pyTrunc
    norm_num
  · norm_num [round_eq]
  · unfold matteOutAlpha blendAlpha pyTrunc
    norm_num [round_eq]

/-- Claim C6 (amended): with the strength clamped to `[0,1]`, at
`s = 1.0` the matte alpha passes through unchanged; for `s < 1.0` the
output alpha is the TRUNCATION `int(255*(1-s) + a*s)` (equal to the
floor, the value being nonnegative) — not the rounding the claim
states; at `s = 0.0` it is uniformly 255, and at `s = 0.5` it is the
floor of the arithmetic mean of 255 and `a`. -/
theorem c6_blend_strength_amended (s : ℚ) (a : Nat) (_ha : a ≤ 255) :
    (clampStrength s = 1 → matteOutAlpha (clampStrength s) a = (a : Int)) ∧
    (clampStrength s < 1 →
      matteOutAlpha (clampStrength s) a
        = ⌊255 * (1 - clampStrength s) + (a : ℚ) * clampStrength s⌋) ∧
    (s = 0 → matteOutAlpha (clampStrength s) a = 255) ∧
    (s = 1 / 2 → matteOutAlpha (clampStrength s) a = ⌊(255 + (a : ℚ)) / 2⌋) := by
  have h0 : 0 ≤ clampStrength s := le_max_left 0 _
  have h1 : clampStrength s ≤ 1 := by
    unfold clampStrength
    rcases le_total 1 s with hs | hs
    · rw [min_eq_left hs]
      norm_num
    · rw [min_eq_right hs]
      exact max_le (by norm_num) hs
  have hval : ∀ c : ℚ, 0 ≤ c → c ≤ 1 → (0 : ℚ) ≤ 255 * (1 - c) + (a : ℚ) * c := by
    intro c hc0 hc1
    have := mul_nonneg (by norm_num : (0 : ℚ) ≤ 255) (by linarith : (0 : ℚ) ≤ 1 - c)
    have := mul_nonneg (by positivity : (0 : ℚ) ≤ (a : ℚ)) hc0
    linarith
  refine ⟨?_, ?_, ?_, ?_⟩
  · intro hc
    rw [matteOutAlpha, hc]
    norm_num
  · intro hc
    rw [matteOutAlpha, if_pos hc, blendAlpha, pyTrunc, if_pos (hval _ h0 h1)]
  · intro hs
    subst hs
    have hcz : clampStrength 0 = 0 := by
      unfold clampStrength
      rw [min_eq_right (by norm_num), max_eq_right le_rfl]
    rw [hcz, matteOutAlpha, if_pos (by norm_num), blendAlpha, pyTrunc]
    norm_num
  · intro hs
    subst hs
    have hch : clampStrength (1 / 2 : ℚ) = 1 / 2 := by
      unfold clampStrength
      rw [min_eq_right (by norm_num), max_eq_right (by norm_num)]
    rw [hch, matteOutAlpha, if_pos (by norm_num), blendAlpha, pyTrunc,
      if_pos (by positivity)]
    congr 1
    ring

/-- Claim C6 (amended) witness: strength `1/4`, matte alpha `100`. -/
theorem c6_blend_strength_amended_witness :
    (100 : Nat) ≤ 255 ∧
    ((clampStrength (1 / 4) = 1 → matteOutAlpha (clampStrength (1 / 4)) 100 = (100 : Int)) ∧
    (clampStrength (1 / 4) < 1 →
      matteOutAlpha (clampStrength (1 / 4)) 100
        = ⌊255 * (1 - clampStrength (1 / 4)) + (100 : ℚ) * clampStrength (1 / 4)⌋) ∧
    ((1 / 4 : ℚ) = 0 → matteOutAlpha (clampStrength (1 / 4)) 100 = 255) ∧
    ((1 / 4 : ℚ) = 1 / 2 → matteOutAlpha (clampStrength (1 / 4)) 100 = ⌊(255 + (100 : ℚ)) / 2⌋)) :=
  ⟨by norm_num, c6_blend_strength_amended (1 / 4) 100 (by norm_num)⟩

/-- Claim C8 is refuted by the code: after a single non-batch
`generate` job finishes (a quiescent point — no batch and no job is
active), `_handle_generate` has left `current_index = 1`,
`total_items = 1` and the emoji in place; nothing resets them. -/
theorem c8_quiescent_counterexample :
    ¬ progressReset ((handleGenerate { initialState with generator := true }
        { jobId := some "job-1", emoji := some "Y", prompt := some "p",
          outputPath := some "o.png", settings := none, preserve := false }
        "fresh" none).final) := by
  intro hres
  exact absurd hres.1 (by decide)

/-- Claim C8 (amended): the reset invariant holds at process start and
after any batch run that returns without an exception (natural
completion or cancellation); a single non-batch `generate` sets
`current_index = 1`, `total_items = 1` and the emoji while it runs —
but these values persist after the job finishes instead of being
reset. -/
theorem c8_progress_state_amended :
    (∀ (st : BackendState) (cmd : GenCmd) (freshId : String) (pipe : Option String),
      st.generator = true → cmd.preserve = false →
        (handleGenerate st cmd freshId pipe).final.currentIndex = 1 ∧
        (handleGenerate st cmd freshId pipe).final.totalItems = 1 ∧
        (handleGenerate st cmd freshId pipe).final.currentEmoji = cmd.emoji.getD "") ∧
    (∀ (st : BackendState) (catalog : List String) (bag : Option Bag)
        (outDir p : Option String) (uuid : Nat → String) (pipe : Nat → Option String)
        (cancel : Nat → Bool),
      st.generator = true →
      (handleGenerateAll st catalog bag outDir p uuid pipe cancel).raised = none →
      progressReset (handleGenerateAll st catalog bag outDir p uuid pipe cancel).final) ∧
    progressReset initialState := by
  refine ⟨?_, ?_, rfl, rfl, rfl⟩
  · intro st cmd freshId pipe hgen hpres
    exact handleGenerate_sets_one_one st cmd freshId pipe hgen hpres
  · intro st catalog bag outDir p uuid pipe cancel hgen hr
    exact handleGenerateAll_reset_of_not_raised st catalog bag outDir p uuid pipe cancel
      hgen hr

/-- Claim C8 (amended) witness: the single-job part at a concrete
command and the batch part at a concrete completed run. -/
theorem c8_progress_state_amended_witness :
    ((handleGenerate { initialState with generator := true }
        { jobId := some "j", emoji := some "Z", prompt := some "p",
          outputPath := some "o.png", settings := none, preserve := false }
        "f" none).final.currentIndex = 1 ∧
     (handleGenerate { initialState with generator := true }
        { jobId := some "j", emoji := some "Z", prompt := some "p",
          outputPath := some "o.png", settings := none, preserve := false }
        "f" none).final.totalItems = 1 ∧
     (handleGenerate { initialState with generator := true }
        { jobId := some "j", emoji := some "Z", prompt := some "p",
          outputPath := some "o.png", settings := none, preserve := false }
        "f" none).final.currentEmoji
       = (({ jobId := some "j", emoji := some "Z", prompt := some "p",
             outputPath := some "o.png", settings := none, preserve := false } :
             GenCmd).emoji.getD "")) ∧
    progressReset (handleGenerateAll { initialState with generator := true } ["a"] none
        (some "out") (some "pr") (fun n => toString n) (fun _ => none)
        (fun _ => false)).final :=
  ⟨c8_progress_state_amended.1 { initialState with generator := true }
      { jobId := some "j", emoji := some "Z", prompt := some "p",
        outputPath := some "o.png", settings := none, preserve := false } "f" none rfl rfl,
   c8_progress_state_amended.2.1 { initialState with generator := true } ["a"] none
      (some "out") (some "pr") (fun n => toString n) (fun _ => none) (fun _ => false)
      rfl (by decide)⟩

/-- Claim C9: `_normalize_settings` is idempotent — whenever it
succeeds (including on the `raw is None → {}` path), re-running it on
its output returns that output unchanged; in particular the
`cfg_scale` alias has been folded into `guidance_scale` once and is
absent afterwards. -/
theorem c9_normalize_idempotent (raw : Option Bag) (y : Bag)
    (h : normalizeSettingsOpt raw = some y) : normalizeSettings y = some y := by
  cases raw with
  | none =>
    cases h
    rfl
  | some raw => exact normalize_of_isNormalized (isNormalized_of_normalize h)

/-- Claim C9 witness: the empty settings dict. -/
theorem c9_normalize_idempotent_witness : normalizeSettings emptyBag = some emptyBag :=
  c9_normalize_idempotent none emptyBag rfl

/-- Claim C10: with no generation engine handle (`generator is None`),
`_handle_generate` emits exactly one `error` event carrying the
command's `job_id` and the message `Generator not initialized.`, and
`_handle_generate_all` emits the same with an empty `job_id`; both
return the state unchanged (counters and cancellation flag untouched),
make no orchestrator invocation and never enter the pipeline. -/
theorem c10_uninitialized_rejected (st : BackendState) (cmd : GenCmd) (freshId : String)
    (pipe1 : Option String) (catalog : List String) (bag : Option Bag)
    (outDir p : Option String) (uuid : Nat → String) (pipe : Nat → Option String)
    (cancel : Nat → Bool) (h : st.generator = false) :
    handleGenerate st cmd freshId pipe1
      = { events := [Event.error (cmd.jobId.getD "") "Generator not initialized."],
          final := st, raised := none, ranPipeline := false } ∧
    handleGenerateAll st catalog bag outDir p uuid pipe cancel
      = { events := [Event.error "" "Generator not initialized."], calls := [],
          final := st, raised := none } := by
  constructor
  · unfold handleGenerate
    rw [h, if_pos rfl]
  · unfold handleGenerateAll
    rw [h, if_pos rfl]

/-- Claim C10 witness: a fresh, never-initialized state. -/
theorem c10_uninitialized_rejected_witness :
    initialState.generator = false ∧
    (handleGenerate initialState
        { jobId := some "j7", emoji := some "X", prompt := some "p",
          outputPath := some "o.png", settings := none, preserve := false } "f" none
      = { events := [Event.error (((some "j7" : Option String)).getD "")
            "Generator not initialized."],
          final := initialState, raised := none, ranPipeline := false } ∧
    handleGenerateAll initialState ["a"] none (some "out") (some "pr")
        (fun n => toString n) (fun _ => none) (fun _ => false)
      = { events := [Event.error "" "Generator not initialized."], calls := [],
          final := initialState, raised := none }) :=
  ⟨rfl, c10_uninitialized_rejected initialState
    { jobId := some "j7", emoji := some "X", prompt := some "p",
      outputPath := some "o.png", settings := none, preserve := false } "f" none
    ["a"] none (some "out") (some "pr") (fun n => toString n) (fun _ => none)
    (fun _ => false) rfl⟩

end EmojiForge
